import Mathlib

/-!
Shallow embedding of the git-town workflow VM sources:
the unfinished-state entry point (src/validate/handle_unfinished_state.go),
the append command (src/cmd/append.go), the create-tracking-branch opcode
(src/vm/opcode/create_tracking_branch.go), and the ship command
(src/cmd/ship.go).  Collaborators that are not part of the given sources
(the branch-sync planner, lineage walking, program wrapping, run-state
constructors) are modelled from the specification and marked as such.
-/

/-- Branch names are plain strings. -/
abbrev Branch := String

/-- Opcodes of the v11 VM that appear in the append command and in the
sync planner modelled from the spec. -/
inductive Opcode where
  | checkout (branch : Branch)
  | createBranchExistingParent (ancestors : List Branch) (branch : Branch)
  | setExistingParent (branch : Branch) (ancestors : List Branch)
  | createTrackingBranch (branch : Branch)
  | stashOpenChanges
  | restoreOpenChanges
  | checkoutPrevious (candidates : List Branch)
  | syncReconcileRemote (branch : Branch)
  | syncReconcileParent (branch : Branch) (parent : Branch)
  | syncPush (branch : Branch)
  deriving DecidableEq, Repr

/-- Modelled from the spec: the lineage map (section 4.3, a full
branch-ancestry map, each branch with its immediate parent) is not under
src/; only its callers are.  The fuel field bounds the length of any
parent chain so that the ancestor walk terminates. -/
structure Lineage where
  parent : Branch → Option Branch
  fuel : Nat

/-- Walks the parent chain upward, returning ancestors in root-to-leaf
order, stopping at a branch without a parent or when fuel runs out. -/
def ancestorsFuel (parent : Branch → Option Branch) : Nat → Branch → List Branch
  | 0, _ => []
  | n + 1, b =>
    match parent b with
    | none => []
    | some p => ancestorsFuel parent n p ++ [p]

/-- Modelled from the spec: Lineage.Ancestors, root-first. -/
def Lineage.ancestors (l : Lineage) (b : Branch) : List Branch :=
  ancestorsFuel l.parent l.fuel b

/-- Modelled from the spec: Lineage.BranchAndAncestors returns the
ancestors in root-to-leaf order followed by the branch itself. -/
def Lineage.branchAndAncestors (l : Lineage) (b : Branch) : List Branch :=
  l.ancestors b ++ [b]

/-- Modelled from the spec: configuration consumed by the branch-sync
planner of section 4.3 (sync.BranchProgram is not under src/). -/
structure SyncConfig where
  hasTracking : Branch → Bool
  parent : Branch → Option Branch
  pushBranches : Bool
  hasOrigin : Bool
  isOnline : Bool

/-- Modelled from the spec: the section 4.3 planner output for one branch.
Reconcile with the remote counterpart when one exists and the run is
online, reconcile with the parent when one exists, then push when the
push policy allows, a remote exists and the run is online. -/
def syncBranchProgram (cfg : SyncConfig) (branch : Branch) : List Opcode :=
  (if cfg.hasTracking branch && cfg.isOnline then [Opcode.syncReconcileRemote branch] else [])
    ++ (match cfg.parent branch with
        | some p => [Opcode.syncReconcileParent branch p]
        | none => [])
    ++ (if cfg.pushBranches && cfg.hasOrigin && cfg.isOnline then [Opcode.syncPush branch] else [])

/-- Options of the program wrap, mirroring cmdhelpers.WrapOptions. -/
structure WrapOptions where
  dryRun : Bool
  runInGitRoot : Bool
  stashOpenChanges : Bool
  previousBranchCandidates : List Branch

/-- Modelled from the spec: cmdhelpers.Wrap is not under src/.  Per the
wrap-symmetry property of section 8 and the append scenario of section 8,
when stash-open-changes is false the wrap adds no opcodes; when it is
true the stash comes first and the restore comes last, after a trailing
checkout of the previous branch (section 4.2).  Dry-run is handled by the
interpreter short-circuiting opcode execution, one of the two strategies
the spec allows, so the wrap itself ignores the flag. -/
def wrapProgram (prog : List Opcode) (opts : WrapOptions) : List Opcode :=
  if opts.stashOpenChanges then
    [Opcode.stashOpenChanges] ++ prog
      ++ [Opcode.checkoutPrevious opts.previousBranchCandidates, Opcode.restoreOpenChanges]
  else prog

/-- The append configuration, mirroring appendConfig of src/cmd/append.go
(fields of FullConfig that the program builder reads are inlined). -/
structure AppendConfig where
  branchesToSync : List Branch
  dryRun : Bool
  hasOpenChanges : Bool
  hasOrigin : Bool
  isOnline : Bool
  shouldNewBranchPush : Bool
  newBranchParentCandidates : List Branch
  parentBranch : Branch
  previousBranch : Branch
  initialBranch : Branch
  targetBranch : Branch
  syncCfg : SyncConfig

/-- Mirrors appendProgram of src/cmd/append.go: sync every branch in
branchesToSync, create the new branch with the parent candidates, set its
parent, check it out, create a tracking branch when an origin remote
exists, push-new-branches is set and the run is online, then wrap. -/
def appendProgram (config : AppendConfig) : List Opcode :=
  let syncPart := (config.branchesToSync.map (syncBranchProgram config.syncCfg)).flatten
  let prog := syncPart
    ++ [Opcode.createBranchExistingParent config.newBranchParentCandidates config.targetBranch,
        Opcode.setExistingParent config.targetBranch config.newBranchParentCandidates,
        Opcode.checkout config.targetBranch]
    ++ (if config.hasOrigin && config.shouldNewBranchPush && config.isOnline then
          [Opcode.createTrackingBranch config.targetBranch]
        else [])
  wrapProgram prog
    { dryRun := config.dryRun
      runInGitRoot := true
      stashOpenChanges := config.hasOpenChanges
      previousBranchCandidates := [config.initialBranch, config.previousBranch] }

/-- The unfinished details of a halted run state, mirroring
runstate.UnfinishedRunStateDetails. -/
structure UnfinishedDetails where
  endBranch : Branch
  endTime : Nat
  canSkip : Bool
  deriving DecidableEq, Repr

/-- The run state, mirroring runstate.RunState as used by the given
sources.  The undoProgram field stands for the accumulated undo opcodes
of the already executed opcodes (spec section 4.4). -/
structure RunState where
  command : String
  dryRun : Bool
  initialActiveBranch : Branch
  runProgram : List Opcode
  undoProgram : List Opcode
  unfinishedDetails : Option UnfinishedDetails
  deriving DecidableEq, Repr

/-- Modelled from the spec: RunState.IsUnfinished is not under src/;
section 6 states that unfinished holds exactly when unfinished-details is
present. -/
def RunState.IsUnfinished (self : RunState) : Bool :=
  self.unfinishedDetails.isSome

/-- Modelled from the spec: the per-opcode skip sequence defaults to
empty (section 3). -/
def opcodeSkip (_ : Opcode) : List Opcode := []

/-- Modelled from the spec: RunState.CreateAbortRunState is not under
src/.  Section 4.4 Undo: run the reverse program built from the already
executed opcodes and discard the original pending program. -/
def RunState.CreateAbortRunState (self : RunState) : RunState :=
  { self with runProgram := self.undoProgram, unfinishedDetails := none }

/-- Modelled from the spec: RunState.CreateSkipRunState is not under
src/.  Section 4.4 Skip: replace the front of the pending program with
the failing opcode's skip sequence, then continue. -/
def RunState.CreateSkipRunState (self : RunState) : RunState :=
  { self with
      runProgram :=
        match self.runProgram with
        | [] => []
        | op :: rest => opcodeSkip op ++ rest,
      unfinishedDetails := none }

/-- Responses of the resume prompt, mirroring the dialog package; the
ResponseOther case stands for any unexpected value the dialog could
yield. -/
inductive Response where
  | ResponseContinue
  | ResponseSkip
  | ResponseUndo
  | ResponseDiscard
  | ResponseQuit
  | ResponseOther (value : String)
  deriving DecidableEq, Repr

/-- The repository status read by continueRunstate. -/
structure RepoStatus where
  conflicts : Bool
  openChanges : Bool
  deriving DecidableEq, Repr

/-- Observable outcome of HandleUnfinishedState: the quit flag and error
it returns, whether the resume prompt was shown, which run state (if any)
was handed to interpreter.Execute, and which state-file operations the
handler itself performed. -/
structure HandlerOutcome where
  quit : Bool
  err : Option String
  promptShown : Bool
  executedRunState : Option RunState
  statefileDeleted : Bool
  statefileSaved : Bool
  deriving DecidableEq, Repr

/-- Mirrors HandleUnfinishedState of
src/validate/handle_unfinished_state.go.  Inputs are the results of the
three external calls the function makes: statefile.Load, the resume
dialog, and Backend.RepoStatus (read only on the Continue path).
statefile.Delete is modelled as succeeding. -/
def HandleUnfinishedState (load : Except String (Option RunState))
    (ask : Except String Response) (repoStatus : Except String RepoStatus) :
    HandlerOutcome :=
  match load with
  | Except.error e =>
      { quit := false, err := some e, promptShown := false,
        executedRunState := none, statefileDeleted := false, statefileSaved := false }
  | Except.ok none =>
      { quit := false, err := none, promptShown := false,
        executedRunState := none, statefileDeleted := false, statefileSaved := false }
  | Except.ok (some runState) =>
      if !runState.IsUnfinished then
        { quit := false, err := none, promptShown := false,
          executedRunState := none, statefileDeleted := false, statefileSaved := false }
      else
        match ask with
        | Except.error e =>
            { quit := false, err := some e, promptShown := true,
              executedRunState := none, statefileDeleted := false, statefileSaved := false }
        | Except.ok response =>
            match response with
            | Response.ResponseDiscard =>
                { quit := false, err := none, promptShown := true,
                  executedRunState := none, statefileDeleted := true, statefileSaved := false }
            | Response.ResponseContinue =>
                match repoStatus with
                | Except.error e =>
                    { quit := false, err := some e, promptShown := true,
                      executedRunState := none, statefileDeleted := false, statefileSaved := false }
                | Except.ok status =>
                    if status.conflicts then
                      { quit := false, err := some "you must resolve the conflicts before continuing",
                        promptShown := true, executedRunState := none,
                        statefileDeleted := false, statefileSaved := false }
                    else
                      { quit := true, err := none, promptShown := true,
                        executedRunState := some runState,
                        statefileDeleted := false, statefileSaved := false }
            | Response.ResponseUndo =>
                { quit := true, err := none, promptShown := true,
                  executedRunState := some runState.CreateAbortRunState,
                  statefileDeleted := false, statefileSaved := false }
            | Response.ResponseSkip =>
                { quit := true, err := none, promptShown := true,
                  executedRunState := some runState.CreateSkipRunState,
                  statefileDeleted := false, statefileSaved := false }
            | Response.ResponseQuit =>
                { quit := true, err := none, promptShown := true,
                  executedRunState := none, statefileDeleted := false, statefileSaved := false }
            | Response.ResponseOther v =>
                { quit := false, err := some ("unexpected dialog response " ++ v),
                  promptShown := true, executedRunState := none,
                  statefileDeleted := false, statefileSaved := false }

/-- Inputs of one append invocation: the repository facts read by
determineAppendConfig and the results of the external calls made on the
way (state-file load and resume dialog happen inside LoadBranches with
HandleUnfinishedState set, ancestry assurance may fail). -/
structure AppendEnv where
  targetBranch : Branch
  initialBranch : Branch
  previousBranch : Branch
  hasLocalBranch : Branch → Bool
  hasMatchingTrackingBranchFor : Branch → Bool
  remotesHasOrigin : Bool
  isOnline : Bool
  shouldNewBranchPush : Bool
  repoOpenChanges : Bool
  dryRun : Bool
  syncCfg : SyncConfig
  stateFile : Except String (Option RunState)
  promptResponse : Except String Response
  repoStatusResult : Except String RepoStatus
  ancestryResult : Except String Lineage

/-- Builds the append configuration from the loaded facts, mirroring the
tail of determineAppendConfig of src/cmd/append.go: branchesToSync is the
initial branch with its ancestors in root-to-leaf order, and the parent
candidates are the same list reversed. -/
def mkAppendConfig (env : AppendEnv) (lineage : Lineage) : AppendConfig :=
  { branchesToSync := lineage.branchAndAncestors env.initialBranch
    dryRun := env.dryRun
    hasOpenChanges := env.repoOpenChanges
    hasOrigin := env.remotesHasOrigin
    isOnline := env.isOnline
    shouldNewBranchPush := env.shouldNewBranchPush
    newBranchParentCandidates := (lineage.branchAndAncestors env.initialBranch).reverse
    parentBranch := env.initialBranch
    previousBranch := env.previousBranch
    initialBranch := env.initialBranch
    targetBranch := env.targetBranch
    syncCfg := env.syncCfg }

/-- Observable outcome of one executeAppend invocation. -/
structure AppendOutcome where
  handler : HandlerOutcome
  err : Option String
  newProgram : Option (List Opcode)
  deriving DecidableEq, Repr

/-- Mirrors executeAppend plus determineAppendConfig of
src/cmd/append.go.  LoadBranches first runs HandleUnfinishedState (its
quit flag becomes the exit flag); then the two already-exists checks feed
the failure collector (first failure wins); EnsureKnownBranchAncestry may
fail, and its error takes precedence because it is returned directly
while the collector error is only returned at the end.  Only when no
error and no exit occurred is the append program built and handed to the
interpreter. -/
def executeAppend (env : AppendEnv) : AppendOutcome :=
  let h := HandleUnfinishedState env.stateFile env.promptResponse env.repoStatusResult
  if h.err.isSome then { handler := h, err := h.err, newProgram := none }
  else if h.quit then { handler := h, err := none, newProgram := none }
  else
    let fcErr : Option String :=
      if env.hasLocalBranch env.targetBranch then
        some ("there is already a branch " ++ env.targetBranch)
      else if env.hasMatchingTrackingBranchFor env.targetBranch then
        some ("there is already a remote branch " ++ env.targetBranch)
      else none
    match env.ancestryResult with
    | Except.error e => { handler := h, err := some e, newProgram := none }
    | Except.ok lineage =>
        match fcErr with
        | some e => { handler := h, err := some e, newProgram := none }
        | none =>
            { handler := h, err := none,
              newProgram := some (appendProgram (mkAppendConfig env lineage)) }

/-- Modelled from the spec: the default opcode continuation re-runs the
opcode itself (section 3). -/
def defaultContinuation (op : Opcode) : List Opcode := [op]

/-- Mirrors CreateTrackingBranch.CreateContinueProgram of
src/vm/opcode/create_tracking_branch.go: the continuation is the
singleton sequence holding the opcode itself. -/
def CreateTrackingBranch.CreateContinueProgram (branch : Branch) : List Opcode :=
  [Opcode.createTrackingBranch branch]

/-- Steps of the v7 ship command, mirroring the steps package as used in
src/cmd/ship.go plus the sync steps modelled from the spec. -/
inductive Step where
  | ensureHasShippableChanges (branch : Branch)
  | checkoutBranch (branch : Branch)
  | pushBranch (branch : Branch) (undoable : Bool)
  | driverMergePullRequest (branch : Branch) (pullRequestNumber : Int)
      (commitMessage : String) (defaultCommitMessage : String)
  | pullBranch
  | squashMergeBranch (branch : Branch) (commitMessage : String)
  | deleteOriginBranch (branch : Branch) (isTracking : Bool)
  | deleteLocalBranch (branch : Branch)
  | deleteParentBranch (branch : Branch)
  | setParentBranch (branch : Branch) (parent : Branch)
  | stashOpenChangesStep
  | restoreOpenChangesStep
  | checkoutPreviousStep
  | syncReconcileRemoteStep (branch : Branch)
  | syncReconcileParentStep (branch : Branch) (parent : Branch)
  | syncPushStep (branch : Branch)
  deriving DecidableEq, Repr

/-- The pull request info a hosting driver reports, mirroring
hosting.PullRequestInfo. -/
structure PullRequestInfo where
  canMergeWithAPI : Bool
  defaultCommitMessage : String
  pullRequestNumber : Int
  deriving DecidableEq, Repr

/-- The empty pull request info, the zero value of the Go struct. -/
def PullRequestInfo.empty : PullRequestInfo :=
  { canMergeWithAPI := false, defaultCommitMessage := "", pullRequestNumber := 0 }

/-- A configured hosting driver; loading the pull request info may
fail. -/
structure Driver where
  loadPullRequestInfo : Branch → Branch → Except String PullRequestInfo

/-- Inputs of one ship invocation: the repository and configuration facts
read by determineShipConfig, plus the optional hosting driver (nil in Go
becomes none). -/
structure ShipEnv where
  args : List Branch
  currentBranch : Branch
  hasOpenChanges : Bool
  hasOrigin : Bool
  isOffline : Bool
  hasLocalOrOriginBranch : Branch → Bool
  isFeatureBranch : Branch → Bool
  parentBranch : Branch → Branch
  isMainBranch : Branch → Bool
  isPerennialBranch : Branch → Bool
  ancestorBranches : Branch → List Branch
  hasTrackingBranch : Branch → Bool
  childBranches : Branch → List Branch
  shipDeleteOriginBranch : Bool
  ensureKnowsParents : Option String
  driver : Option Driver

/-- The branch the ship command operates on: the argument when given,
otherwise the currently checked out branch. -/
def shipBranchToShip (env : ShipEnv) : Branch :=
  env.args.headD env.currentBranch

/-- The ship configuration, mirroring shipConfig of src/cmd/ship.go. -/
structure ShipConfig where
  branchToShip : Branch
  branchToMergeInto : Branch
  canShipWithDriver : Bool
  childBranches : List Branch
  defaultCommitMessage : String
  hasOrigin : Bool
  hasTrackingBranch : Bool
  initialBranch : Branch
  isShippingInitialBranch : Bool
  isOffline : Bool
  pullRequestNumber : Int
  deleteOriginBranch : Bool

/-- Result of ensureParentBranchIsMainOrPerennialBranch: the check
passes, or it terminates the process with the ship-the-oldest-ancestor
error, or the slice and index accesses it performs are out of range. -/
inductive ShipCheckResult where
  | pass
  | exitOldestAncestor (oldest : Branch) (ancestorsWithoutMainOrPerennial : List Branch)
  | indexOutOfRange
  deriving DecidableEq, Repr

/-- The Go slice expression with lower bound one: defined only when the
list has at least one element, otherwise the access panics. -/
def goSliceFromOne (l : List Branch) : Option (List Branch) :=
  if 1 ≤ l.length then some (l.drop 1) else none

/-- The Go index expression with index zero: defined only on a non-empty
list, otherwise the access panics. -/
def goIndexZero (l : List Branch) : Option Branch :=
  l.head?

/-- Mirrors ensureParentBranchIsMainOrPerennialBranch of src/cmd/ship.go.
When the configured parent is neither the main branch nor perennial, the
Go code takes the ancestors from index one onward and reads element zero
of that slice; each of the two accesses can be out of range, modelled by
the option-valued goSliceFromOne and goIndexZero. -/
def ensureParentBranchIsMainOrPerennialBranch (env : ShipEnv) (branch : Branch) :
    ShipCheckResult :=
  let parentBranch := env.parentBranch branch
  if env.isMainBranch parentBranch || env.isPerennialBranch parentBranch then
    ShipCheckResult.pass
  else
    let ancestors := env.ancestorBranches branch
    match goSliceFromOne ancestors with
    | none => ShipCheckResult.indexOutOfRange
    | some ancestorsWithoutMainOrPerennial =>
        match goIndexZero ancestorsWithoutMainOrPerennial with
        | none => ShipCheckResult.indexOutOfRange
        | some oldestAncestor =>
            ShipCheckResult.exitOldestAncestor oldestAncestor ancestorsWithoutMainOrPerennial

/-- Mirrors determinePullRequestInfo of src/cmd/ship.go: without an
origin remote, offline, or without a configured driver the empty info is
returned with no error; otherwise the driver is asked. -/
def determinePullRequestInfo (env : ShipEnv) (branch parentBranch : Branch) :
    Except String PullRequestInfo :=
  if !env.hasOrigin then Except.ok PullRequestInfo.empty
  else if env.isOffline then Except.ok PullRequestInfo.empty
  else
    match env.driver with
    | none => Except.ok PullRequestInfo.empty
    | some driver => driver.loadPullRequestInfo branch parentBranch

/-- Result of determineShipConfig: a validation error returned to the
caller, a process exit raised by the parent check, a panic of the parent
check, or the configuration. -/
inductive ShipConfigResult where
  | err (msg : String)
  | exitOldestAncestor (oldest : Branch)
  | crashed
  | ok (config : ShipConfig)

/-- Mirrors determineShipConfig of src/cmd/ship.go, in source order: the
uncommitted-changes check when shipping the initial branch, the
branch-exists check when shipping another branch, the feature-branch
check, the parent-branches dialog, the parent check (which exits or
panics), then the pull request info. -/
def determineShipConfig (env : ShipEnv) : ShipConfigResult :=
  let initialBranch := env.currentBranch
  let branchToShip := shipBranchToShip env
  let isShippingInitialBranch := branchToShip == initialBranch
  if isShippingInitialBranch && env.hasOpenChanges then
    ShipConfigResult.err "you have uncommitted changes. Did you mean to commit them before shipping?"
  else if !isShippingInitialBranch && !env.hasLocalOrOriginBranch branchToShip then
    ShipConfigResult.err ("there is no branch named " ++ branchToShip)
  else if !env.isFeatureBranch branchToShip then
    ShipConfigResult.err ("the branch " ++ branchToShip ++ " is not a feature branch. Only feature branches can be shipped")
  else
    match env.ensureKnowsParents with
    | some e => ShipConfigResult.err e
    | none =>
        match ensureParentBranchIsMainOrPerennialBranch env branchToShip with
        | ShipCheckResult.exitOldestAncestor oldest _ =>
            ShipConfigResult.exitOldestAncestor oldest
        | ShipCheckResult.indexOutOfRange => ShipConfigResult.crashed
        | ShipCheckResult.pass =>
            let branchToMergeInto := env.parentBranch branchToShip
            match determinePullRequestInfo env branchToShip branchToMergeInto with
            | Except.error e => ShipConfigResult.err e
            | Except.ok prInfo =>
                ShipConfigResult.ok
                  { branchToShip := branchToShip
                    branchToMergeInto := branchToMergeInto
                    canShipWithDriver := prInfo.canMergeWithAPI
                    childBranches := env.childBranches branchToShip
                    defaultCommitMessage := prInfo.defaultCommitMessage
                    hasOrigin := env.hasOrigin
                    hasTrackingBranch := env.hasTrackingBranch branchToShip
                    initialBranch := initialBranch
                    isShippingInitialBranch := isShippingInitialBranch
                    isOffline := env.isOffline
                    pullRequestNumber := prInfo.pullRequestNumber
                    deleteOriginBranch := env.shipDeleteOriginBranch }

/-- Modelled from the spec: the v7 syncBranchSteps is not under src/; it
is the section 4.3 planner for one branch, with the push emitted only
when the pushBranch argument is set, mirroring the two call sites in
shipStepList. -/
def syncBranchSteps (env : ShipEnv) (branch : Branch) (pushBranch : Bool) : List Step :=
  (if env.hasTrackingBranch branch && !env.isOffline then [Step.syncReconcileRemoteStep branch] else [])
    ++ (if !(env.isMainBranch branch || env.isPerennialBranch branch) then
          [Step.syncReconcileParentStep branch (env.parentBranch branch)]
        else [])
    ++ (if pushBranch && env.hasOrigin && !env.isOffline then [Step.syncPushStep branch] else [])

/-- Modelled from the spec: the v7 StepList.Wrap is not under src/.  Same
shape as wrapProgram: stash first, restore last after the trailing
checkout of the previous branch, nothing added when stash-open-changes is
false. -/
def wrapSteps (steps : List Step) (stashOpenChanges : Bool) : List Step :=
  if stashOpenChanges then
    [Step.stashOpenChangesStep] ++ steps
      ++ [Step.checkoutPreviousStep, Step.restoreOpenChangesStep]
  else steps

/-- Mirrors shipStepList of src/cmd/ship.go: sync the target of the
merge, sync the branch to ship, ensure shippable changes, check out the
merge target, then either push and merge the pull request through the
driver and pull, or squash-merge locally; push the merge target when an
origin exists and the run is not offline; delete the origin branch when
allowed; delete the local branch and its parent entry; reparent the
children; return to the initial branch when shipping another branch;
wrap. -/
def shipStepList (config : ShipConfig) (commitMessage : String) (env : ShipEnv) : List Step :=
  let steps :=
    syncBranchSteps env config.branchToMergeInto true
      ++ syncBranchSteps env config.branchToShip false
      ++ [Step.ensureHasShippableChanges config.branchToShip,
          Step.checkoutBranch config.branchToMergeInto]
      ++ (if config.canShipWithDriver then
            [Step.pushBranch config.branchToShip false,
             Step.driverMergePullRequest config.branchToShip config.pullRequestNumber
               commitMessage config.defaultCommitMessage,
             Step.pullBranch]
          else [Step.squashMergeBranch config.branchToShip commitMessage])
      ++ (if config.hasOrigin && !config.isOffline then
            [Step.pushBranch config.branchToMergeInto true]
          else [])
      ++ (if (config.canShipWithDriver
              || (config.hasTrackingBranch && config.childBranches.isEmpty && !config.isOffline))
             && config.deleteOriginBranch then
            [Step.deleteOriginBranch config.branchToShip true]
          else [])
      ++ [Step.deleteLocalBranch config.branchToShip,
          Step.deleteParentBranch config.branchToShip]
      ++ config.childBranches.map (fun child => Step.setParentBranch child config.branchToMergeInto)
      ++ (if !config.isShippingInitialBranch then [Step.checkoutBranch config.initialBranch] else [])
  wrapSteps steps (!config.isShippingInitialBranch)

/-- Observable outcome of one ship invocation. -/
inductive ShipOutcome where
  | validationError (msg : String)
  | exitOldestAncestor (oldest : Branch)
  | crashed
  | planned (steps : List Step)

/-- Mirrors the Run function of shipCmd in src/cmd/ship.go: a failing
determineShipConfig exits before any run state is created or executed;
otherwise the step list is built and handed to runstate.Execute. -/
def shipCmdModel (env : ShipEnv) (commitMessage : String) : ShipOutcome :=
  match determineShipConfig env with
  | ShipConfigResult.err e => ShipOutcome.validationError e
  | ShipConfigResult.exitOldestAncestor oldest => ShipOutcome.exitOldestAncestor oldest
  | ShipConfigResult.crashed => ShipOutcome.crashed
  | ShipConfigResult.ok config => ShipOutcome.planned (shipStepList config commitMessage env)

/-- The steps of a planned ship outcome, none otherwise. -/
def ShipOutcome.plannedSteps : ShipOutcome → Option (List Step)
  | ShipOutcome.planned steps => some steps
  | _ => none

/-- Whether a step is the driver pull-request-merge step. -/
def isDriverMergeStep : Step → Bool
  | Step.driverMergePullRequest _ _ _ _ => true
  | _ => false

/-- Whether a step is the local squash-merge step. -/
def isSquashMergeStep : Step → Bool
  | Step.squashMergeBranch _ _ => true
  | _ => false

/-! Concrete instances used by witnesses and counterexamples. -/

/-- A halted (unfinished) run state. -/
def exUnfinishedRunState : RunState :=
  { command := "sync"
    dryRun := false
    initialActiveBranch := "main"
    runProgram := [Opcode.syncReconcileParent "feat" "main", Opcode.syncPush "feat"]
    undoProgram := [Opcode.checkout "main"]
    unfinishedDetails := some { endBranch := "feat", endTime := 7, canSkip := true } }

/-- A finished run state: a persisted file exists but holds no
unfinished details. -/
def exFinishedRunState : RunState :=
  { command := "sync"
    dryRun := false
    initialActiveBranch := "main"
    runProgram := []
    undoProgram := []
    unfinishedDetails := none }

/-- A repository status without conflicts. -/
def exCleanStatus : RepoStatus := { conflicts := false, openChanges := false }

/-- A repository status with unresolved conflicts. -/
def exConflictStatus : RepoStatus := { conflicts := true, openChanges := false }

/-- A sync configuration for a two-branch chain main to b. -/
def exSyncCfg : SyncConfig :=
  { hasTracking := fun b => b == "b"
    parent := fun b => if b == "b" then some "main" else none
    pushBranches := true
    hasOrigin := true
    isOnline := true }

/-- The lineage of the chain main to b. -/
def exLineage : Lineage :=
  { parent := fun b => if b == "b" then some "main" else none, fuel := 3 }

/-- An append invocation with a fresh target branch d off branch b whose
only ancestor is main, with no persisted run state. -/
def exAppendEnvFresh : AppendEnv :=
  { targetBranch := "d"
    initialBranch := "b"
    previousBranch := "main"
    hasLocalBranch := fun b => b == "main" || b == "b"
    hasMatchingTrackingBranchFor := fun _ => false
    remotesHasOrigin := true
    isOnline := true
    shouldNewBranchPush := true
    repoOpenChanges := false
    dryRun := false
    syncCfg := exSyncCfg
    stateFile := Except.ok none
    promptResponse := Except.ok Response.ResponseQuit
    repoStatusResult := Except.ok exCleanStatus
    ancestryResult := Except.ok exLineage }

/-- An append invocation whose target branch d already exists locally. -/
def exAppendEnvExisting : AppendEnv :=
  { exAppendEnvFresh with hasLocalBranch := fun b => b == "main" || b == "b" || b == "d" }

/-- An append invocation while a persisted but finished run state exists
for the repository root. -/
def exAppendEnvFinishedState : AppendEnv :=
  { exAppendEnvFresh with stateFile := Except.ok (some exFinishedRunState) }

/-- An append invocation while a persisted unfinished run state exists;
the prompt answer is Quit. -/
def exAppendEnvUnfinishedState : AppendEnv :=
  { exAppendEnvFresh with stateFile := Except.ok (some exUnfinishedRunState) }

/-- A ship invocation of a branch that is not a feature branch. -/
def exShipEnvNonFeature : ShipEnv :=
  { args := ["hotfix"]
    currentBranch := "main"
    hasOpenChanges := false
    hasOrigin := true
    isOffline := false
    hasLocalOrOriginBranch := fun _ => true
    isFeatureBranch := fun _ => false
    parentBranch := fun _ => ""
    isMainBranch := fun b => b == "main"
    isPerennialBranch := fun _ => false
    ancestorBranches := fun _ => []
    hasTrackingBranch := fun _ => false
    childBranches := fun _ => []
    shipDeleteOriginBranch := false
    ensureKnowsParents := none
    driver := none }

/-- A ship invocation of the feature branch feat, child of main, with an
origin remote, online, and no hosting driver configured. -/
def exShipEnvNoDriver : ShipEnv :=
  { args := []
    currentBranch := "feat"
    hasOpenChanges := false
    hasOrigin := true
    isOffline := false
    hasLocalOrOriginBranch := fun _ => true
    isFeatureBranch := fun b => b == "feat"
    parentBranch := fun b => if b == "feat" then "main" else ""
    isMainBranch := fun b => b == "main"
    isPerennialBranch := fun _ => false
    ancestorBranches := fun b => if b == "feat" then ["main"] else []
    hasTrackingBranch := fun _ => true
    childBranches := fun _ => []
    shipDeleteOriginBranch := true
    ensureKnowsParents := none
    driver := none }

/-- A ship environment where branch c sits on the chain main to b to c,
so the parent of c is neither main nor perennial and c has exactly two
ancestors. -/
def exShipCheckEnv : ShipEnv :=
  { args := []
    currentBranch := "c"
    hasOpenChanges := false
    hasOrigin := true
    isOffline := false
    hasLocalOrOriginBranch := fun _ => true
    isFeatureBranch := fun _ => true
    parentBranch := fun b => if b == "c" then "b" else if b == "b" then "main" else ""
    isMainBranch := fun b => b == "main"
    isPerennialBranch := fun _ => false
    ancestorBranches := fun b => if b == "c" then ["main", "b"] else []
    hasTrackingBranch := fun _ => true
    childBranches := fun _ => []
    shipDeleteOriginBranch := true
    ensureKnowsParents := none
    driver := none }

/-! Theorems. -/

/-- C8: the continuation of the create-tracking-branch opcode is the
default one: for every such opcode value it is the singleton sequence
holding exactly that opcode. -/
theorem c8_create_tracking_branch_default_continuation (branch : Branch) :
    CreateTrackingBranch.CreateContinueProgram branch
        = defaultContinuation (Opcode.createTrackingBranch branch)
      ∧ CreateTrackingBranch.CreateContinueProgram branch
        = [Opcode.createTrackingBranch branch] :=
  ⟨rfl, rfl⟩

/-- C9: selecting Quit at the resume prompt returns without error,
executes no opcode and neither saves nor deletes the persisted run
state. -/
theorem c9_quit_leaves_state_untouched (load : Except String (Option RunState))
    (ask : Except String Response) (st : Except String RepoStatus) (rs : RunState)
    (hload : load = Except.ok (some rs)) (hunf : rs.IsUnfinished = true)
    (hask : ask = Except.ok Response.ResponseQuit) :
    HandleUnfinishedState load ask st =
      { quit := true, err := none, promptShown := true, executedRunState := none,
        statefileDeleted := false, statefileSaved := false } := by
  subst hload hask
  simp [HandleUnfinishedState, hunf]

/-- Witness for C9 at a concrete unfinished run state. -/
theorem c9_quit_witness :
    exUnfinishedRunState.IsUnfinished = true
      ∧ HandleUnfinishedState (Except.ok (some exUnfinishedRunState))
          (Except.ok Response.ResponseQuit) (Except.ok exCleanStatus) =
        { quit := true, err := none, promptShown := true, executedRunState := none,
          statefileDeleted := false, statefileSaved := false } :=
  ⟨rfl, c9_quit_leaves_state_untouched _ _ _ exUnfinishedRunState rfl rfl rfl⟩

/-- C4: any resume-prompt response outside the five known ones yields a
fatal protocol error: an error is returned, no opcode is executed and the
persisted run state is neither saved nor deleted. -/
theorem c4_unexpected_response_fatal (load : Except String (Option RunState))
    (ask : Except String Response) (st : Except String RepoStatus) (rs : RunState)
    (value : String)
    (hload : load = Except.ok (some rs)) (hunf : rs.IsUnfinished = true)
    (hask : ask = Except.ok (Response.ResponseOther value)) :
    (HandleUnfinishedState load ask st).err.isSome = true
      ∧ (HandleUnfinishedState load ask st).executedRunState = none
      ∧ (HandleUnfinishedState load ask st).statefileSaved = false
      ∧ (HandleUnfinishedState load ask st).statefileDeleted = false := by
  subst hload hask
  simp [HandleUnfinishedState, hunf]

/-- Witness for C4 at a concrete unfinished run state and a concrete
unexpected response. -/
theorem c4_unexpected_response_witness :
    exUnfinishedRunState.IsUnfinished = true
      ∧ (HandleUnfinishedState (Except.ok (some exUnfinishedRunState))
            (Except.ok (Response.ResponseOther "banana")) (Except.ok exCleanStatus)).err.isSome = true
      ∧ (HandleUnfinishedState (Except.ok (some exUnfinishedRunState))
            (Except.ok (Response.ResponseOther "banana")) (Except.ok exCleanStatus)).executedRunState = none
      ∧ (HandleUnfinishedState (Except.ok (some exUnfinishedRunState))
            (Except.ok (Response.ResponseOther "banana")) (Except.ok exCleanStatus)).statefileSaved = false
      ∧ (HandleUnfinishedState (Except.ok (some exUnfinishedRunState))
            (Except.ok (Response.ResponseOther "banana")) (Except.ok exCleanStatus)).statefileDeleted = false :=
  ⟨rfl, c4_unexpected_response_fatal _ _ _ exUnfinishedRunState "banana" rfl rfl rfl⟩

/-- C6: selecting Discard deletes the persisted run state and executes no
opcode of the halted program: the interpreter is not invoked with any run
state, so the repository is left exactly as at halt time. -/
theorem c6_discard_deletes_without_running (load : Except String (Option RunState))
    (ask : Except String Response) (st : Except String RepoStatus) (rs : RunState)
    (hload : load = Except.ok (some rs)) (hunf : rs.IsUnfinished = true)
    (hask : ask = Except.ok Response.ResponseDiscard) :
    HandleUnfinishedState load ask st =
      { quit := false, err := none, promptShown := true, executedRunState := none,
        statefileDeleted := true, statefileSaved := false } := by
  subst hload hask
  simp [HandleUnfinishedState, hunf]

/-- Witness for C6 at a concrete unfinished run state. -/
theorem c6_discard_witness :
    exUnfinishedRunState.IsUnfinished = true
      ∧ HandleUnfinishedState (Except.ok (some exUnfinishedRunState))
          (Except.ok Response.ResponseDiscard) (Except.ok exCleanStatus) =
        { quit := false, err := none, promptShown := true, executedRunState := none,
          statefileDeleted := true, statefileSaved := false } :=
  ⟨rfl, c6_discard_deletes_without_running _ _ _ exUnfinishedRunState rfl rfl rfl⟩

/-- C7: selecting Continue while the repository reports unresolved
conflicts returns an error without executing any opcode and without
touching the persisted run state; the pending program is executed only
when no conflicts remain, and then exactly as persisted. -/
theorem c7_continue_requires_resolved_conflicts (load : Except String (Option RunState))
    (ask : Except String Response) (st : Except String RepoStatus) (rs : RunState)
    (status : RepoStatus)
    (hload : load = Except.ok (some rs)) (hunf : rs.IsUnfinished = true)
    (hask : ask = Except.ok Response.ResponseContinue) (hst : st = Except.ok status) :
    (status.conflicts = true →
        (HandleUnfinishedState load ask st).err.isSome = true
          ∧ (HandleUnfinishedState load ask st).executedRunState = none
          ∧ (HandleUnfinishedState load ask st).statefileSaved = false
          ∧ (HandleUnfinishedState load ask st).statefileDeleted = false)
      ∧ ((HandleUnfinishedState load ask st).executedRunState.isSome = true →
          status.conflicts = false)
      ∧ (status.conflicts = false →
          (HandleUnfinishedState load ask st).executedRunState = some rs) := by
  subst hload hask hst
  cases hc : status.conflicts <;> simp [HandleUnfinishedState, hunf, hc]

/-- Witness for C7 at a concrete unfinished run state and a conflicted
repository status. -/
theorem c7_continue_witness :
    exUnfinishedRunState.IsUnfinished = true
      ∧ exConflictStatus.conflicts = true
      ∧ ((exConflictStatus.conflicts = true →
            (HandleUnfinishedState (Except.ok (some exUnfinishedRunState))
                (Except.ok Response.ResponseContinue) (Except.ok exConflictStatus)).err.isSome = true
              ∧ (HandleUnfinishedState (Except.ok (some exUnfinishedRunState))
                  (Except.ok Response.ResponseContinue) (Except.ok exConflictStatus)).executedRunState = none
              ∧ (HandleUnfinishedState (Except.ok (some exUnfinishedRunState))
                  (Except.ok Response.ResponseContinue) (Except.ok exConflictStatus)).statefileSaved = false
              ∧ (HandleUnfinishedState (Except.ok (some exUnfinishedRunState))
                  (Except.ok Response.ResponseContinue) (Except.ok exConflictStatus)).statefileDeleted = false)
          ∧ ((HandleUnfinishedState (Except.ok (some exUnfinishedRunState))
                (Except.ok Response.ResponseContinue) (Except.ok exConflictStatus)).executedRunState.isSome = true →
              exConflictStatus.conflicts = false)
          ∧ (exConflictStatus.conflicts = false →
              (HandleUnfinishedState (Except.ok (some exUnfinishedRunState))
                  (Except.ok Response.ResponseContinue) (Except.ok exConflictStatus)).executedRunState
                = some exUnfinishedRunState)) :=
  ⟨rfl, rfl,
    c7_continue_requires_resolved_conflicts _ _ _ exUnfinishedRunState exConflictStatus rfl rfl rfl rfl⟩

/-- C10: with a parent that is neither main nor perennial, the slice and
index accesses of the parent check are in bounds exactly when the branch
has at least two ancestors; with fewer than two the access is out of
range, and with at least two the check terminates with the
ship-the-oldest-ancestor error naming the second ancestor. -/
theorem c10_oldest_ancestor_index_bounds (env : ShipEnv) (branch : Branch)
    (hp : (env.isMainBranch (env.parentBranch branch)
            || env.isPerennialBranch (env.parentBranch branch)) = false) :
    (ensureParentBranchIsMainOrPerennialBranch env branch = ShipCheckResult.indexOutOfRange
        ↔ (env.ancestorBranches branch).length < 2)
      ∧ (2 ≤ (env.ancestorBranches branch).length →
          ensureParentBranchIsMainOrPerennialBranch env branch =
            ShipCheckResult.exitOldestAncestor (((env.ancestorBranches branch).drop 1).headD "")
              ((env.ancestorBranches branch).drop 1)) := by
  simp only [ensureParentBranchIsMainOrPerennialBranch, goSliceFromOne, goIndexZero, hp,
    Bool.false_eq_true, if_false]
  rcases hl : env.ancestorBranches branch with _ | ⟨a, _ | ⟨b, u⟩⟩ <;> simp [hl]

/-- Witness for C10: a branch with a single ancestor drives the check
out of range; another with two ancestors reaches the exit error. -/
theorem c10_oldest_ancestor_witness :
    (exShipCheckEnv.isMainBranch (exShipCheckEnv.parentBranch "c")
        || exShipCheckEnv.isPerennialBranch (exShipCheckEnv.parentBranch "c")) = false
      ∧ ((ensureParentBranchIsMainOrPerennialBranch exShipCheckEnv "c"
            = ShipCheckResult.indexOutOfRange
          ↔ (exShipCheckEnv.ancestorBranches "c").length < 2)
        ∧ (2 ≤ (exShipCheckEnv.ancestorBranches "c").length →
            ensureParentBranchIsMainOrPerennialBranch exShipCheckEnv "c" =
              ShipCheckResult.exitOldestAncestor
                (((exShipCheckEnv.ancestorBranches "c").drop 1).headD "")
                ((exShipCheckEnv.ancestorBranches "c").drop 1))) :=
  ⟨rfl, c10_oldest_ancestor_index_bounds exShipCheckEnv "c" rfl⟩

/-- C5: an append invocation whose target already exists locally or has a
matching tracking branch surfaces a validation error with no program
handed to the interpreter and no state-file save, and a ship invocation
of a non-feature branch fails determineShipConfig with the
not-a-feature-branch error, so no step list is built and nothing runs. -/
theorem c5_preflight_validation_no_execution (envA : AppendEnv) (lin : Lineage)
    (envS : ShipEnv) (commitMessage : String)
    (hsf : envA.stateFile = Except.ok none)
    (hanc : envA.ancestryResult = Except.ok lin)
    (hA : envA.hasLocalBranch envA.targetBranch = true
            ∨ envA.hasMatchingTrackingBranchFor envA.targetBranch = true)
    (hSopen : envS.hasOpenChanges = false)
    (hSexists : envS.hasLocalOrOriginBranch (shipBranchToShip envS) = true)
    (hSfeat : envS.isFeatureBranch (shipBranchToShip envS) = false) :
    ((executeAppend envA).err.isSome = true
        ∧ (executeAppend envA).newProgram = none
        ∧ (executeAppend envA).handler.statefileSaved = false)
      ∧ shipCmdModel envS commitMessage =
          ShipOutcome.validationError
            ("the branch " ++ shipBranchToShip envS
              ++ " is not a feature branch. Only feature branches can be shipped") := by
  have hh : HandleUnfinishedState envA.stateFile envA.promptResponse envA.repoStatusResult =
      { quit := false, err := none, promptShown := false, executedRunState := none,
        statefileDeleted := false, statefileSaved := false } := by
    rw [hsf]
    rfl
  constructor
  · rcases hA with h1 | h1
    · simp [executeAppend, hh, hanc, h1]
    · cases h2 : envA.hasLocalBranch envA.targetBranch <;>
        simp [executeAppend, hh, hanc, h1, h2]
  · simp [shipCmdModel, determineShipConfig, hSopen, hSexists, hSfeat]

/-- Witness for C5 at a concrete append invocation whose target d already
exists and a concrete ship invocation of a non-feature branch. -/
theorem c5_preflight_witness :
    exAppendEnvExisting.hasLocalBranch exAppendEnvExisting.targetBranch = true
      ∧ exShipEnvNonFeature.isFeatureBranch (shipBranchToShip exShipEnvNonFeature) = false
      ∧ (((executeAppend exAppendEnvExisting).err.isSome = true
            ∧ (executeAppend exAppendEnvExisting).newProgram = none
            ∧ (executeAppend exAppendEnvExisting).handler.statefileSaved = false)
          ∧ shipCmdModel exShipEnvNonFeature "done" =
              ShipOutcome.validationError
                ("the branch " ++ shipBranchToShip exShipEnvNonFeature
                  ++ " is not a feature branch. Only feature branches can be shipped")) :=
  ⟨rfl, rfl,
    c5_preflight_validation_no_execution exAppendEnvExisting exLineage exShipEnvNonFeature "done"
      rfl rfl (Or.inl rfl) rfl rfl rfl⟩

/-- The handler field of the append outcome is always the result of the
unfinished-state entry point, whichever branch the command takes. -/
theorem executeAppend_handler_eq (env : AppendEnv) :
    (executeAppend env).handler
      = HandleUnfinishedState env.stateFile env.promptResponse env.repoStatusResult := by
  simp only [executeAppend]
  repeat' split
  all_goals rfl

/-- With an unfinished loaded run state the entry point always shows the
resume prompt, whatever the response and repository status are. -/
theorem handler_unfinished_prompts (ask : Except String Response)
    (st : Except String RepoStatus) (rs : RunState) (hunf : rs.IsUnfinished = true) :
    (HandleUnfinishedState (Except.ok (some rs)) ask st).promptShown = true := by
  cases ask with
  | error e => simp [HandleUnfinishedState, hunf]
  | ok r =>
    cases st with
    | error e => cases r <;> simp [HandleUnfinishedState, hunf]
    | ok status => cases r <;> cases hc : status.conflicts <;> simp [HandleUnfinishedState, hunf, hc]

/-- With an unfinished loaded run state, the only way the entry point
returns no error and no quit flag is the Discard branch, which deletes
the persisted state. -/
theorem handler_proceed_means_discard (ask : Except String Response)
    (st : Except String RepoStatus) (rs : RunState) (hunf : rs.IsUnfinished = true)
    (he : (HandleUnfinishedState (Except.ok (some rs)) ask st).err = none)
    (hq : (HandleUnfinishedState (Except.ok (some rs)) ask st).quit = false) :
    (HandleUnfinishedState (Except.ok (some rs)) ask st).statefileDeleted = true := by
  cases ask with
  | error e => simp_all [HandleUnfinishedState, hunf]
  | ok r =>
    cases st with
    | error e => cases r <;> simp_all [HandleUnfinishedState, hunf]
    | ok status => cases r <;> cases hc : status.conflicts <;> simp_all [HandleUnfinishedState, hunf]

/-- A new append program is only built and executed when the entry point
reported neither an error nor the quit flag. -/
theorem executeAppend_newProgram_conditions (env : AppendEnv)
    (hsome : (executeAppend env).newProgram.isSome = true) :
    (HandleUnfinishedState env.stateFile env.promptResponse env.repoStatusResult).err = none
      ∧ (HandleUnfinishedState env.stateFile env.promptResponse env.repoStatusResult).quit = false := by
  simp only [executeAppend] at hsome
  by_cases h1 : (HandleUnfinishedState env.stateFile env.promptResponse env.repoStatusResult).err.isSome = true
  · simp [h1] at hsome
  · by_cases h2 : (HandleUnfinishedState env.stateFile env.promptResponse env.repoStatusResult).quit = true
    · simp [h1, h2] at hsome
    · refine ⟨?_, ?_⟩
      · exact Option.not_isSome_iff_eq_none.mp h1
      · simpa using h2

/-- C1 (amended): whenever the persisted run state for the repository
root is unfinished, the append entry point routes to the resume prompt
before any new opcode runs, and the new workflow program reaches the
interpreter only after the persisted state has been discarded
(deleted). -/
theorem c1_unfinished_state_routes_to_prompt (env : AppendEnv) (rs : RunState)
    (hload : env.stateFile = Except.ok (some rs)) (hunf : rs.IsUnfinished = true) :
    (executeAppend env).handler.promptShown = true
      ∧ ((executeAppend env).newProgram.isSome = true →
          (executeAppend env).handler.statefileDeleted = true) := by
  have hh := executeAppend_handler_eq env
  constructor
  · rw [hh, hload]
    exact handler_unfinished_prompts _ _ _ hunf
  · intro hsome
    have hcond := executeAppend_newProgram_conditions env hsome
    rw [hload] at hcond
    rw [hh, hload]
    exact handler_proceed_means_discard _ _ _ hunf hcond.1 hcond.2

/-- Counterexample for C1 as stated: a persisted RunState file exists
(holding a finished state), yet no resume prompt is shown and the newly
requested append program is built and handed to the interpreter. -/
theorem c1_finished_state_counterexample :
    (executeAppend exAppendEnvFinishedState).handler.promptShown = false
      ∧ (executeAppend exAppendEnvFinishedState).newProgram.isSome = true :=
  ⟨rfl, rfl⟩

/-- Witness for the amended C1 at a concrete unfinished run state. -/
theorem c1_unfinished_witness :
    exAppendEnvUnfinishedState.stateFile = Except.ok (some exUnfinishedRunState)
      ∧ exUnfinishedRunState.IsUnfinished = true
      ∧ ((executeAppend exAppendEnvUnfinishedState).handler.promptShown = true
          ∧ ((executeAppend exAppendEnvUnfinishedState).newProgram.isSome = true →
              (executeAppend exAppendEnvUnfinishedState).handler.statefileDeleted = true)) :=
  ⟨rfl, rfl,
    c1_unfinished_state_routes_to_prompt exAppendEnvUnfinishedState exUnfinishedRunState rfl rfl⟩

/-- C2: on a branch B whose ancestry is A (root) to B, appending a new
branch D produces exactly the sync sub-sequences of A then B (root to
leaf), the create-branch opcode for D with parent candidates B then A
(leaf to root), the set-parent opcode for D with the same candidates, the
checkout of D, and the create-tracking-branch opcode exactly when an
origin remote exists, push-new-branches is set and the run is online. -/
theorem c2_append_program_shape (env : AppendEnv) (lin : Lineage) (A B D : Branch)
    (hsf : env.stateFile = Except.ok none)
    (hinit : env.initialBranch = B)
    (htgt : env.targetBranch = D)
    (hloc : env.hasLocalBranch D = false)
    (htrk : env.hasMatchingTrackingBranchFor D = false)
    (hanc : env.ancestryResult = Except.ok lin)
    (hlin : lin.branchAndAncestors B = [A, B])
    (hopen : env.repoOpenChanges = false) :
    (executeAppend env).newProgram = some
      (syncBranchProgram env.syncCfg A ++ syncBranchProgram env.syncCfg B
        ++ [Opcode.createBranchExistingParent [B, A] D,
            Opcode.setExistingParent D [B, A],
            Opcode.checkout D]
        ++ (if env.remotesHasOrigin && env.shouldNewBranchPush && env.isOnline then
              [Opcode.createTrackingBranch D]
            else [])) := by
  have hh : HandleUnfinishedState env.stateFile env.promptResponse env.repoStatusResult =
      { quit := false, err := none, promptShown := false, executedRunState := none,
        statefileDeleted := false, statefileSaved := false } := by
    rw [hsf]
    rfl
  simp [executeAppend, hh, hanc, htgt, hloc, htrk, mkAppendConfig, appendProgram,
    wrapProgram, hinit, hlin, hopen]

/-- Witness for C2 on the concrete chain main to b with new branch d and
all tracking-branch conditions enabled. -/
theorem c2_append_witness :
    (executeAppend exAppendEnvFresh).newProgram = some
      [Opcode.syncPush "main",
       Opcode.syncReconcileRemote "b", Opcode.syncReconcileParent "b" "main",
       Opcode.syncPush "b",
       Opcode.createBranchExistingParent ["b", "main"] "d",
       Opcode.setExistingParent "d" ["b", "main"],
       Opcode.checkout "d",
       Opcode.createTrackingBranch "d"] :=
  c2_append_program_shape exAppendEnvFresh exLineage "main" "b" "d"
    rfl rfl rfl rfl rfl rfl rfl rfl

/-- Without a configured driver the pull request info is the empty zero
value, loaded without error, on every path. -/
theorem determinePullRequestInfo_no_driver (env : ShipEnv) (b p : Branch)
    (hdrv : env.driver = none) :
    determinePullRequestInfo env b p = Except.ok PullRequestInfo.empty := by
  simp [determinePullRequestInfo, hdrv]

/-- Any ship configuration produced without a configured driver has the
can-ship-with-driver flag cleared. -/
theorem determineShipConfig_no_driver_canShip (env : ShipEnv) (cfg : ShipConfig)
    (hdrv : env.driver = none) (hc : determineShipConfig env = ShipConfigResult.ok cfg) :
    cfg.canShipWithDriver = false := by
  have hpr : ∀ b p, determinePullRequestInfo env b p = Except.ok PullRequestInfo.empty :=
    fun b p => determinePullRequestInfo_no_driver env b p hdrv
  simp only [determineShipConfig, hpr] at hc
  repeat' split at hc
  all_goals try (cases hc; rfl)
  all_goals simp_all

/-- The per-branch sync steps contain neither merge variant. -/
theorem syncBranchSteps_no_merge (env : ShipEnv) (b : Branch) (p : Bool) :
    (syncBranchSteps env b p).any isDriverMergeStep = false
      ∧ (syncBranchSteps env b p).any isSquashMergeStep = false := by
  unfold syncBranchSteps
  repeat' split
  all_goals simp [isDriverMergeStep, isSquashMergeStep]

/-- A ship step list built with the can-ship-with-driver flag cleared
contains no driver pull-request-merge step and contains the local
squash-merge step. -/
theorem shipStepList_no_driver (cfg : ShipConfig) (cm : String) (env : ShipEnv)
    (h : cfg.canShipWithDriver = false) :
    (shipStepList cfg cm env).any isDriverMergeStep = false
      ∧ (shipStepList cfg cm env).any isSquashMergeStep = true := by
  obtain ⟨hs1, hs1'⟩ := syncBranchSteps_no_merge env cfg.branchToMergeInto true
  obtain ⟨hs2, hs2'⟩ := syncBranchSteps_no_merge env cfg.branchToShip false
  simp only [shipStepList, wrapSteps, h]
  repeat' split
  all_goals simp_all [List.any_append, isDriverMergeStep, isSquashMergeStep,
    List.any_map, Function.comp]

/-- C3 (amended): absence of a configured hosting driver is not a
planning failure; whenever the ship command reaches a planned step list
without a driver, that plan contains no driver pull-request-merge step
and falls back to the local squash-merge step. -/
theorem c3_no_driver_falls_back_to_squash (env : ShipEnv) (commitMessage : String)
    (hdrv : env.driver = none)
    (hplan : ((shipCmdModel env commitMessage).plannedSteps).isSome = true) :
    (((shipCmdModel env commitMessage).plannedSteps).getD []).any isDriverMergeStep = false
      ∧ (((shipCmdModel env commitMessage).plannedSteps).getD []).any isSquashMergeStep = true := by
  unfold shipCmdModel at hplan ⊢
  cases hc : determineShipConfig env with
  | err e => rw [hc] at hplan; simp [ShipOutcome.plannedSteps] at hplan
  | exitOldestAncestor o => rw [hc] at hplan; simp [ShipOutcome.plannedSteps] at hplan
  | crashed => rw [hc] at hplan; simp [ShipOutcome.plannedSteps] at hplan
  | ok cfg =>
      have hcs := determineShipConfig_no_driver_canShip env cfg hdrv hc
      simp only [hc, ShipOutcome.plannedSteps, Option.getD]
      exact shipStepList_no_driver cfg commitMessage env hcs

/-- Counterexample for C3 as stated: with no driver configured, planning
the ship workflow succeeds (it is not rejected as a validation failure);
the plan contains no driver pull-request-merge step and instead contains
the local squash-merge step. -/
theorem c3_no_driver_counterexample :
    ((shipCmdModel exShipEnvNoDriver "ship feat").plannedSteps).isSome = true
      ∧ (((shipCmdModel exShipEnvNoDriver "ship feat").plannedSteps).getD []).any
          isDriverMergeStep = false
      ∧ (((shipCmdModel exShipEnvNoDriver "ship feat").plannedSteps).getD []).any
          isSquashMergeStep = true :=
  ⟨rfl, rfl, rfl⟩

/-- Witness for the amended C3 at a concrete driverless ship
invocation. -/
theorem c3_no_driver_witness :
    exShipEnvNoDriver.driver = none
      ∧ ((shipCmdModel exShipEnvNoDriver "m").plannedSteps).isSome = true
      ∧ ((((shipCmdModel exShipEnvNoDriver "m").plannedSteps).getD []).any
            isDriverMergeStep = false
          ∧ (((shipCmdModel exShipEnvNoDriver "m").plannedSteps).getD []).any
              isSquashMergeStep = true) :=
  ⟨rfl, rfl, c3_no_driver_falls_back_to_squash exShipEnvNoDriver "m" rfl rfl⟩
